import Mathlib

/-!
Verification of the client-side session/authentication lifecycle controller of
rn-firebase-auth-starter. The definitions below are a shallow embedding of
src/contexts/AuthContext.tsx (Session Controller) and src/services/authService.ts
(Remote Auth Client error normalization). Remote calls and fallible secure-store
writes are passed in as explicit oracle parameters; each controller operation is
a big-step function from a session state and store contents to a final session
state, final store contents, and an optional thrown error message.
-/

namespace RnAuth

/-- The User record (src/contexts/AuthContext.tsx, interface User). -/
structure User where
  uid : String
  email : String
  displayName : Option String
  emailVerified : Bool
deriving DecidableEq

/-- The data field of AuthResponse (src/services/authService.ts lines 6-19). -/
structure AuthData where
  user : User
  token : String
  refreshToken : String
deriving DecidableEq

/-- AuthResponse (src/services/authService.ts lines 6-19): success flag, optional
data payload, optional message. -/
structure AuthResponse where
  success : Bool
  data : Option AuthData
  message : Option String
deriving DecidableEq

/-- ApiResponse (src/services/authService.ts lines 21-25); its untyped data field
is not inspected by the controller and is omitted. -/
structure ApiResponse where
  success : Bool
  message : Option String
deriving DecidableEq

/-- Contents of the Secure Credential Store under the three fixed keys
TOKEN_KEY, REFRESH_TOKEN_KEY, USER_KEY (AuthContext.tsx lines 38-40).
none means the key is absent. -/
structure Store where
  token : Option String
  refreshTok : Option String
  userData : Option String
deriving DecidableEq

def emptyStore : Store := ⟨none, none, none⟩

/-- The in-memory session state owned by the provider (AuthContext.tsx lines
44-46): user, isLoading, error. isAuthenticated is derived, see below. -/
structure SessionState where
  user : Option User
  isLoading : Bool
  error : Option String
deriving DecidableEq

/-- JS truthiness of a string-or-null value: null and the empty string are
falsy, every other string is truthy. -/
def truthy : Option String → Bool
  | none => false
  | some s => s != ""

/-- JS expression m OR-ELSE d for an optional string m, as in
authResponse.message with a fixed fallback (AuthContext.tsx line 133). -/
def jsOr (m : Option String) (d : String) : String :=
  match m with
  | none => d
  | some s => if s = "" then d else s

/-- Outcome of one controller operation: final session state, final store
contents, and the thrown error message (none = normal return). -/
structure Result where
  s : SessionState
  st : Store
  thrown : Option String
deriving DecidableEq

/-- Success of each of the three SecureStore.setItemAsync writes performed by
storeAuthData, in program order (spec section 4.3: set may fail). -/
structure StoreEnv where
  tokOk : Bool
  refOk : Bool
  usrOk : Bool
deriving DecidableEq

/-- storeAuthData (AuthContext.tsx lines 89-103). Rejects a missing data payload
or a falsy token string up front; then writes the three keys in order, a failing
write aborting the sequence and surfacing the fixed catch message; user and
error are updated only after all three writes succeed. serialize models
JSON.stringify of the user record. -/
def storeAuthData (serialize : User → String) (env : StoreEnv) (resp : AuthResponse)
    (s : SessionState) (st : Store) : Result :=
  match resp.data with
  | none => ⟨s, st, some "Invalid authentication data received"⟩
  | some d =>
    if d.token = "" then ⟨s, st, some "Invalid authentication data received"⟩
    else if !env.tokOk then ⟨s, st, some "Failed to store authentication data"⟩
    else
      let st1 : Store := { st with token := some d.token }
      if !env.refOk then ⟨s, st1, some "Failed to store authentication data"⟩
      else
        let st2 : Store := { st1 with refreshTok := some d.refreshToken }
        if !env.usrOk then ⟨s, st2, some "Failed to store authentication data"⟩
        else
          ⟨{ s with user := some d.user, error := none },
           { st2 with userData := some (serialize d.user) }, none⟩

/-- clearAuthData (AuthContext.tsx lines 108-118): delete all three keys, set
user to null, set error to null. Per the Store contract of spec section 4.3,
delete is idempotent and never fails, so the catch branch is unreachable and
the purge always completes without throwing. -/
def clearAuthData (s : SessionState) (st : Store) : SessionState × Store :=
  ({ s with user := none, error := none }, emptyStore)

/-- Entry phase shared by login, register and resetPassword:
setIsLoading(true); setError(null) (AuthContext.tsx lines 125-126, 149-150,
198-199). -/
def opEntry (s : SessionState) : SessionState := { s with isLoading := true, error := none }

/-- Entry phase of logout: setIsLoading(true) only; logout does not clear error
at entry (AuthContext.tsx line 173). -/
def logoutEntry (s : SessionState) : SessionState := { s with isLoading := true }

/-- login (AuthContext.tsx lines 123-142). loginR is the outcome of
authService.login: ok carries the parsed response body, error carries the
message of the exception the service threw. -/
def login (serialize : User → String) (env : StoreEnv)
    (loginR : Except String AuthResponse) (s : SessionState) (st : Store) : Result :=
  let s1 := opEntry s
  match loginR with
  | .error m =>
    ⟨{ s1 with isLoading := false, error := some m }, st, some m⟩
  | .ok resp =>
    if resp.success && resp.data.isSome then
      let r := storeAuthData serialize env resp s1 st
      match r.thrown with
      | none => ⟨{ r.s with isLoading := false }, r.st, none⟩
      | some m => ⟨{ r.s with isLoading := false, error := some m }, r.st, some m⟩
    else
      let m := jsOr resp.message "Login failed"
      ⟨{ s1 with isLoading := false, error := some m }, st, some m⟩

/-- register (AuthContext.tsx lines 147-166); identical control flow to login
with the Registration failed fallback message. -/
def register (serialize : User → String) (env : StoreEnv)
    (registerR : Except String AuthResponse) (s : SessionState) (st : Store) : Result :=
  let s1 := opEntry s
  match registerR with
  | .error m =>
    ⟨{ s1 with isLoading := false, error := some m }, st, some m⟩
  | .ok resp =>
    if resp.success && resp.data.isSome then
      let r := storeAuthData serialize env resp s1 st
      match r.thrown with
      | none => ⟨{ r.s with isLoading := false }, r.st, none⟩
      | some m => ⟨{ r.s with isLoading := false, error := some m }, r.st, some m⟩
    else
      let m := jsOr resp.message "Registration failed"
      ⟨{ s1 with isLoading := false, error := some m }, st, some m⟩

/-- logout (AuthContext.tsx lines 171-191). The remote authService.logout
outcome logoutR is swallowed by the inner catch; clearAuthData never throws
(see its contract), so the outer catch is unreachable and logout always
returns normally with the bundle purged. -/
def logout (logoutR : Except String ApiResponse) (s : SessionState) (st : Store) : Result :=
  let s1 := logoutEntry s
  let p := clearAuthData s1 st
  ⟨{ p.1 with isLoading := false }, p.2, none⟩

/-- resetPassword (AuthContext.tsx lines 196-213). resetR is the outcome of
authService.resetPassword. -/
def resetPassword (resetR : Except String ApiResponse) (s : SessionState) (st : Store) : Result :=
  let s1 := opEntry s
  match resetR with
  | .error m => ⟨{ s1 with isLoading := false, error := some m }, st, some m⟩
  | .ok resp =>
    if resp.success then ⟨{ s1 with isLoading := false }, st, none⟩
    else
      let m := jsOr resp.message "Password reset failed"
      ⟨{ s1 with isLoading := false, error := some m }, st, some m⟩

/-- refreshToken (AuthContext.tsx lines 218-240). Reads the stored refresh
token (falsy means throw No refresh token available), calls
authService.refreshToken (oracle refreshR applied to the stored token), and on
any failure runs clearAuthData, records the message in error and re-throws.
Note: the source has no setIsLoading and no entry setError(null) here. -/
def refreshToken (serialize : User → String) (env : StoreEnv)
    (refreshR : String → Except String AuthResponse) (s : SessionState) (st : Store) : Result :=
  if truthy st.refreshTok then
    match refreshR (st.refreshTok.getD "") with
    | .error m =>
      let p := clearAuthData s st
      ⟨{ p.1 with error := some m }, p.2, some m⟩
    | .ok resp =>
      if resp.success && resp.data.isSome then
        let r := storeAuthData serialize env resp s st
        match r.thrown with
        | none => r
        | some m =>
          let p := clearAuthData r.s r.st
          ⟨{ p.1 with error := some m }, p.2, some m⟩
      else
        let m := jsOr resp.message "Token refresh failed"
        let p := clearAuthData s st
        ⟨{ p.1 with error := some m }, p.2, some m⟩
  else
    let m := "No refresh token available"
    let p := clearAuthData s st
    ⟨{ p.1 with error := some m }, p.2, some m⟩

/-- checkAuthStatus, the startup reconciliation (AuthContext.tsx lines 56-84).
parse models JSON.parse of the stored user string (none = parse throws, landing
in the outer catch); getMeR is the outcome of authService.getCurrentUser, whose
ok value is the possibly-absent data field of the response; writeOk is the
success of the SecureStore.setItemAsync call that refreshes the cached user (a
failure there lands in the inner catch). Every branch ends by clearing
isLoading in the finally block; checkAuthStatus itself never throws. -/
def checkAuthStatus (parse : String → Option User) (serialize : User → String)
    (writeOk : Bool) (getMeR : Except String (Option AuthData))
    (s : SessionState) (st : Store) : Result :=
  let s1 := { s with isLoading := true }
  if truthy st.token && truthy st.userData then
    match parse (st.userData.getD "") with
    | none =>
      let p := clearAuthData s1 st
      ⟨{ p.1 with isLoading := false }, p.2, none⟩
    | some pu =>
      let s2 := { s1 with user := some pu }
      match getMeR with
      | .error _ =>
        let p := clearAuthData s2 st
        ⟨{ p.1 with isLoading := false }, p.2, none⟩
      | .ok none => ⟨{ s2 with isLoading := false }, st, none⟩
      | .ok (some d) =>
        let s3 := { s2 with user := some d.user }
        if writeOk then
          ⟨{ s3 with isLoading := false },
           { st with userData := some (serialize d.user) }, none⟩
        else
          let p := clearAuthData s3 st
          ⟨{ p.1 with isLoading := false }, p.2, none⟩
  else
    ⟨{ s1 with isLoading := false }, st, none⟩

/-- clearError (AuthContext.tsx lines 245-247). -/
def clearError (s : SessionState) : SessionState := { s with error := none }

/-- The derived isAuthenticated flag exposed to consumers
(AuthContext.tsx line 254: double negation of user). -/
def isAuthenticated (s : SessionState) : Bool := s.user.isSome

/-- The fields of a JS error value that formatError inspects: the Error
message, the optional axios response payload (message and error fields of
response.data), and the optional axios error code. A plain Error constructed
by formatError itself has neither a response nor a code. -/
structure ErrPayload where
  dataMessage : Option String
  dataError : Option String
deriving DecidableEq

structure JsError where
  message : String
  response : Option ErrPayload
  code : Option String
deriving DecidableEq

def mkError (m : String) : JsError := ⟨m, none, none⟩

/-- formatError (src/services/authService.ts lines 102-114): server payload
message, else server payload error field, else distinguished network or
timeout message by error code, else the generic fallback. -/
def formatError (e : JsError) : JsError :=
  if truthy (e.response.bind ErrPayload.dataMessage) then
    mkError ((e.response.bind ErrPayload.dataMessage).getD "")
  else if truthy (e.response.bind ErrPayload.dataError) then
    mkError ((e.response.bind ErrPayload.dataError).getD "")
  else if e.code == some "NETWORK_ERROR" then
    mkError "Network error. Please check your connection."
  else if e.code == some "ECONNABORTED" then
    mkError "Request timeout. Please try again."
  else
    mkError "An unexpected error occurred. Please try again."

/-- The exception that actually reaches the Session Controller when a service
request fails. The response interceptor (authService.ts lines 73-82) rejects
with formatError of the axios error; every service method (login, register,
resetPassword, refreshToken, logout, getCurrentUser) then catches that
already-formatted Error and throws formatError of it again
(e.g. lines 119-126). -/
def serviceThrown (e : JsError) : JsError := formatError (formatError e)

/-! ### Helper lemmas shared by several claims -/

theorem storeAuthData_isLoading (sz : User → String) (env : StoreEnv) (resp : AuthResponse)
    (s : SessionState) (st : Store) :
    (storeAuthData sz env resp s st).s.isLoading = s.isLoading := by
  unfold storeAuthData
  cases resp.data with
  | none => rfl
  | some d =>
    dsimp only
    split
    · rfl
    · split
      · rfl
      · split
        · rfl
        · split <;> rfl

theorem storeAuthData_cases (sz : User → String) (env : StoreEnv)
    (resp : AuthResponse) (s : SessionState) (st : Store) :
    (storeAuthData sz env resp s st).thrown = none ∨
      (storeAuthData sz env resp s st).s = s := by
  unfold storeAuthData
  cases resp.data with
  | none => exact Or.inr rfl
  | some d =>
    dsimp only
    split
    · exact Or.inr rfl
    · split
      · exact Or.inr rfl
      · split
        · exact Or.inr rfl
        · split
          · exact Or.inr rfl
          · exact Or.inl rfl

theorem storeAuthData_state_of_thrown (sz : User → String) (env : StoreEnv)
    (resp : AuthResponse) (s : SessionState) (st : Store) (m : String)
    (h : (storeAuthData sz env resp s st).thrown = some m) :
    (storeAuthData sz env resp s st).s = s := by
  rcases storeAuthData_cases sz env resp s st with hc | hc
  · rw [hc] at h; exact absurd h (by simp)
  · exact hc

theorem storeAuthData_token_inv (sz : User → String) (env : StoreEnv)
    (resp : AuthResponse) (s : SessionState) (st : Store)
    (h : s.user.isSome = true → st.token.isSome = true) :
    (storeAuthData sz env resp s st).s.user.isSome = true →
      (storeAuthData sz env resp s st).st.token.isSome = true := by
  unfold storeAuthData
  cases resp.data with
  | none => exact h
  | some d =>
    dsimp only
    split
    · exact h
    · split
      · exact h
      · split
        · intro _; rfl
        · split
          · intro _; rfl
          · intro _; rfl

/-! ### C1: loading-flag and error discipline of the five operations -/

/-- C1 counterexample: refreshToken does not set isLoading=false before control
returns to the caller. Starting from a state with isLoading=true and an empty
store, refreshToken exits by throwing No refresh token available and the final
isLoading is still true, refuting the claim that every operation among login,
register, logout, resetPassword and refreshToken sets isLoading=false on every
exit path. -/
theorem c1_refreshToken_leaves_isLoading :
    (refreshToken (fun _ => "") ⟨true, true, true⟩ (fun _ => Except.error "boom")
        ⟨none, true, none⟩ emptyStore).s.isLoading = true
    ∧ (refreshToken (fun _ => "") ⟨true, true, true⟩ (fun _ => Except.error "boom")
        ⟨none, true, none⟩ emptyStore).thrown = some "No refresh token available" :=
  ⟨rfl, rfl⟩

/-- C1 (amended): login, register and resetPassword set isLoading=true and
error=null at entry and set isLoading=false on every exit path; logout sets
isLoading=true at entry without clearing error, and sets isLoading=false on
every exit path; refreshToken neither sets the loading flag nor clears error at
entry, and leaves isLoading unchanged on every exit path. -/
theorem c1_loading_error_discipline :
    (∀ s : SessionState, (opEntry s).isLoading = true ∧ (opEntry s).error = none)
    ∧ (∀ s : SessionState, (logoutEntry s).isLoading = true ∧ (logoutEntry s).error = s.error)
    ∧ (∀ (sz : User → String) (env : StoreEnv) (r : Except String AuthResponse)
        (s : SessionState) (st : Store), (login sz env r s st).s.isLoading = false)
    ∧ (∀ (sz : User → String) (env : StoreEnv) (r : Except String AuthResponse)
        (s : SessionState) (st : Store), (register sz env r s st).s.isLoading = false)
    ∧ (∀ (r : Except String ApiResponse) (s : SessionState) (st : Store),
        (logout r s st).s.isLoading = false)
    ∧ (∀ (r : Except String ApiResponse) (s : SessionState) (st : Store),
        (resetPassword r s st).s.isLoading = false)
    ∧ (∀ (sz : User → String) (env : StoreEnv) (r : String → Except String AuthResponse)
        (s : SessionState) (st : Store),
        (refreshToken sz env r s st).s.isLoading = s.isLoading) := by
  refine ⟨fun s => ⟨rfl, rfl⟩, fun s => ⟨rfl, rfl⟩, ?_, ?_, ?_, ?_, ?_⟩
  · intro sz env r s st
    unfold login
    cases r with
    | error m => rfl
    | ok resp =>
      dsimp only
      split
      · split <;> rfl
      · rfl
  · intro sz env r s st
    unfold register
    cases r with
    | error m => rfl
    | ok resp =>
      dsimp only
      split
      · split <;> rfl
      · rfl
  · intro r s st; rfl
  · intro r s st
    unfold resetPassword
    cases r with
    | error m => rfl
    | ok resp =>
      dsimp only
      split <;> rfl
  · intro sz env r s st
    unfold refreshToken
    split
    · cases r (st.refreshTok.getD "") with
      | error m => rfl
      | ok resp =>
        dsimp only
        split
        · split
          · exact storeAuthData_isLoading sz env resp s st
          · simpa [clearAuthData] using storeAuthData_isLoading sz env resp s st
        · rfl
    · rfl

/-! ### C2: the error message that reaches the Session Controller -/

/-- C2: the code formats every service failure twice, so the exception that
reaches the Session Controller never carries the server-supplied message. For
an axios error whose response payload has message Invalid credentials, a single
formatError application yields Invalid credentials (the documented precedence),
but serviceThrown — the interceptor followed by the method-level re-format that
the controller actually observes — yields the generic fallback. -/
theorem c2_double_format_loses_server_message :
    (serviceThrown (JsError.mk "Request failed with status code 400"
        (some (ErrPayload.mk (some "Invalid credentials") none)) none)).message
      = "An unexpected error occurred. Please try again."
    ∧ (formatError (JsError.mk "Request failed with status code 400"
        (some (ErrPayload.mk (some "Invalid credentials") none)) none)).message
      = "Invalid credentials" :=
  ⟨rfl, rfl⟩

/-! ### C3: logout purges unconditionally -/

/-- C3: for every prior session state, store contents and remote logout
outcome, a completed logout ends with user=null, all three store keys absent,
and no thrown failure. -/
theorem c3_logout_purges_unconditionally (r : Except String ApiResponse)
    (s : SessionState) (st : Store) :
    (logout r s st).s.user = none ∧ (logout r s st).st = emptyStore
      ∧ (logout r s st).thrown = none :=
  ⟨rfl, rfl, rfl⟩

/-! ### Failure-shape characterizations used by C4 and C6 -/

theorem refreshToken_failure_shape (sz : User → String) (env : StoreEnv)
    (orc : String → Except String AuthResponse) (s : SessionState) (st : Store) :
    (refreshToken sz env orc s st).thrown = none ∨
      ((refreshToken sz env orc s st).st = emptyStore
        ∧ (refreshToken sz env orc s st).s.user = none
        ∧ (refreshToken sz env orc s st).s.error = (refreshToken sz env orc s st).thrown) := by
  unfold refreshToken
  split
  · cases orc (st.refreshTok.getD "") with
    | error m => exact Or.inr ⟨rfl, rfl, rfl⟩
    | ok resp =>
      dsimp only
      split
      · split
        · rename_i heq
          exact Or.inl heq
        · exact Or.inr ⟨rfl, rfl, rfl⟩
      · exact Or.inr ⟨rfl, rfl, rfl⟩
  · exact Or.inr ⟨rfl, rfl, rfl⟩

theorem login_failure_shape (sz : User → String) (env : StoreEnv)
    (orc : Except String AuthResponse) (s : SessionState) (st : Store) :
    (login sz env orc s st).thrown = none ∨
      ((login sz env orc s st).s.user = s.user
        ∧ (login sz env orc s st).s.error = (login sz env orc s st).thrown) := by
  unfold login
  cases orc with
  | error m => exact Or.inr ⟨rfl, rfl⟩
  | ok resp =>
    dsimp only
    split
    · split
      · exact Or.inl rfl
      · rename_i m heq
        refine Or.inr ⟨?_, rfl⟩
        have hs := storeAuthData_state_of_thrown sz env resp (opEntry s) st m heq
        simpa [opEntry] using congrArg SessionState.user hs
    · exact Or.inr ⟨rfl, rfl⟩

/-! ### C4: any refresh failure is full session invalidation -/

/-- C4: whenever refreshToken throws, the store is fully purged, user is null
and error holds the thrown message; and when no (truthy) refresh token is
stored, the operation throws No refresh token available, leaving user null and
the store purged (so an initially empty store stays empty). -/
theorem c4_refresh_failure_invalidates (sz : User → String) (env : StoreEnv)
    (orc : String → Except String AuthResponse) (s : SessionState) (st : Store) :
    (∀ m, (refreshToken sz env orc s st).thrown = some m →
      (refreshToken sz env orc s st).st = emptyStore
      ∧ (refreshToken sz env orc s st).s.user = none
      ∧ (refreshToken sz env orc s st).s.error = some m)
    ∧ (truthy st.refreshTok = false →
        (refreshToken sz env orc s st).thrown = some "No refresh token available"
        ∧ (refreshToken sz env orc s st).s.user = none
        ∧ (refreshToken sz env orc s st).st = emptyStore) := by
  constructor
  · intro m hm
    rcases refreshToken_failure_shape sz env orc s st with h | ⟨h1, h2, h3⟩
    · rw [hm] at h; exact absurd h (by simp)
    · exact ⟨h1, h2, h3.trans hm⟩
  · intro h
    unfold refreshToken
    rw [h]
    exact ⟨rfl, rfl, rfl⟩

theorem c4_refresh_failure_invalidates_witness :
    (refreshToken (fun _ => "sz") ⟨true, true, true⟩ (fun _ => Except.error "x")
        ⟨none, false, none⟩ emptyStore).st = emptyStore
    ∧ (refreshToken (fun _ => "sz") ⟨true, true, true⟩ (fun _ => Except.error "x")
        ⟨none, false, none⟩ emptyStore).s.user = none
    ∧ (refreshToken (fun _ => "sz") ⟨true, true, true⟩ (fun _ => Except.error "x")
        ⟨none, false, none⟩ emptyStore).s.error = some "No refresh token available" :=
  (c4_refresh_failure_invalidates (fun _ => "sz") ⟨true, true, true⟩
    (fun _ => Except.error "x") ⟨none, false, none⟩ emptyStore).1
    "No refresh token available" rfl

/-! ### C6: a failed login leaves the user unchanged -/

/-- C6: a remote login failure is propagated as a thrown message, and on every
failing run of login (remote rejection, transport failure or storage failure)
the user field is unchanged from before the call and error holds the thrown
message. -/
theorem c6_login_failure_frame (sz : User → String) (env : StoreEnv)
    (orc : Except String AuthResponse) (s : SessionState) (st : Store) :
    (∀ m, orc = Except.error m → (login sz env orc s st).thrown = some m)
    ∧ ∀ m, (login sz env orc s st).thrown = some m →
        (login sz env orc s st).s.user = s.user
        ∧ (login sz env orc s st).s.error = some m := by
  constructor
  · intro m hm
    rw [hm]
    rfl
  · intro m hm
    rcases login_failure_shape sz env orc s st with h | ⟨h1, h2⟩
    · rw [hm] at h; exact absurd h (by simp)
    · exact ⟨h1, h2.trans hm⟩

theorem c6_login_failure_frame_witness :
    (login (fun _ => "sz") ⟨true, true, true⟩ (Except.error "bad")
        ⟨some ⟨"u1", "a@b.com", none, true⟩, false, none⟩ emptyStore).thrown = some "bad"
    ∧ (login (fun _ => "sz") ⟨true, true, true⟩ (Except.error "bad")
        ⟨some ⟨"u1", "a@b.com", none, true⟩, false, none⟩ emptyStore).s.user
        = some ⟨"u1", "a@b.com", none, true⟩
    ∧ (login (fun _ => "sz") ⟨true, true, true⟩ (Except.error "bad")
        ⟨some ⟨"u1", "a@b.com", none, true⟩, false, none⟩ emptyStore).s.error = some "bad" :=
  ⟨(c6_login_failure_frame (fun _ => "sz") ⟨true, true, true⟩ (Except.error "bad")
      ⟨some ⟨"u1", "a@b.com", none, true⟩, false, none⟩ emptyStore).1 "bad" rfl,
   (c6_login_failure_frame (fun _ => "sz") ⟨true, true, true⟩ (Except.error "bad")
      ⟨some ⟨"u1", "a@b.com", none, true⟩, false, none⟩ emptyStore).2 "bad" rfl⟩

/-! ### C10: purging the bundle also resets error -/

/-- C10: the purge routine clearAuthData always ends with error=null (and
user=null and an empty store); consequently a logout, which never throws, ends
with error=null even though it does not clear error at entry; and a startup
reconciliation whose getCurrentUser call fails ends its purge with error=null
as well. -/
theorem c10_purge_resets_error :
    (∀ (s : SessionState) (st : Store), (clearAuthData s st).1.error = none
      ∧ (clearAuthData s st).1.user = none ∧ (clearAuthData s st).2 = emptyStore)
    ∧ (∀ (r : Except String ApiResponse) (s : SessionState) (st : Store),
        (logout r s st).s.error = none ∧ (logout r s st).thrown = none)
    ∧ (∀ (p : String → Option User) (sz : User → String) (w : Bool) (e : String)
        (s : SessionState) (st : Store),
        truthy st.token = true → truthy st.userData = true →
        (checkAuthStatus p sz w (Except.error e) s st).s.error = none
        ∧ (checkAuthStatus p sz w (Except.error e) s st).s.user = none
        ∧ (checkAuthStatus p sz w (Except.error e) s st).st = emptyStore) := by
  refine ⟨fun s st => ⟨rfl, rfl, rfl⟩, fun r s st => ⟨rfl, rfl⟩, ?_⟩
  intro p sz w e s st h1 h2
  have hc : (truthy st.token && truthy st.userData) = true := by rw [h1, h2]; rfl
  simp only [checkAuthStatus, hc, if_true]
  split <;> exact ⟨rfl, rfl, rfl⟩

theorem c10_purge_resets_error_witness :
    truthy (some "tok") = true
    ∧ ((checkAuthStatus (fun _ => none) (fun _ => "sz") true (Except.error "e")
        ⟨none, false, some "old"⟩ ⟨some "tok", some "ref", some "usr"⟩).s.error = none
      ∧ (checkAuthStatus (fun _ => none) (fun _ => "sz") true (Except.error "e")
        ⟨none, false, some "old"⟩ ⟨some "tok", some "ref", some "usr"⟩).s.user = none
      ∧ (checkAuthStatus (fun _ => none) (fun _ => "sz") true (Except.error "e")
        ⟨none, false, some "old"⟩ ⟨some "tok", some "ref", some "usr"⟩).st = emptyStore) :=
  ⟨rfl,
   c10_purge_resets_error.2.2 (fun _ => none) (fun _ => "sz") true "e"
     ⟨none, false, some "old"⟩ ⟨some "tok", some "ref", some "usr"⟩ rfl rfl⟩

/-! ### checkAuthStatus helper lemmas -/

theorem check_skip (p : String → Option User) (sz : User → String) (w : Bool)
    (orc : Except String (Option AuthData)) (s : SessionState) (st : Store)
    (h : (truthy st.token && truthy st.userData) = false) :
    checkAuthStatus p sz w orc s st = ⟨{ s with isLoading := false }, st, none⟩ := by
  simp [checkAuthStatus, h]

theorem isSome_of_truthy (o : Option String) (h : truthy o = true) : o.isSome = true := by
  cases o with
  | none => exact absurd h (by simp [truthy])
  | some v => rfl

/-! ### C5: startup reconciliation contract -/

/-- C5: startup reconciliation (i) with both store keys absent and the startup
user null ends with user=null, (ii) with both keys present and a failing
getCurrentUser purges the whole bundle and ends with user=null, and (iii) ends
with isLoading=false on every path. -/
theorem c5_startup_reconciliation (p : String → Option User) (sz : User → String)
    (w : Bool) (orc : Except String (Option AuthData)) (s : SessionState) (st : Store) :
    (st.token = none → st.userData = none → s.user = none →
      (checkAuthStatus p sz w orc s st).s.user = none)
    ∧ (truthy st.token = true → truthy st.userData = true →
        ∀ e, orc = Except.error e →
          (checkAuthStatus p sz w orc s st).st = emptyStore
          ∧ (checkAuthStatus p sz w orc s st).s.user = none)
    ∧ (checkAuthStatus p sz w orc s st).s.isLoading = false := by
  refine ⟨?_, ?_, ?_⟩
  · intro h1 h2 h3
    have hc : (truthy st.token && truthy st.userData) = false := by
      rw [h1]; rfl
    rw [check_skip p sz w orc s st hc]
    exact h3
  · intro h1 h2 e he
    subst he
    have hc : (truthy st.token && truthy st.userData) = true := by rw [h1, h2]; rfl
    simp only [checkAuthStatus, hc, if_true]
    split <;> exact ⟨rfl, rfl⟩
  · unfold checkAuthStatus
    split
    · split
      · rfl
      · cases orc with
        | error e => rfl
        | ok od =>
          cases od with
          | none => rfl
          | some d =>
            dsimp only
            split <;> rfl
    · rfl

theorem c5_startup_reconciliation_witness :
    ((checkAuthStatus (fun _ => none) (fun _ => "sz") true (Except.error "net")
        ⟨none, true, none⟩ emptyStore).s.user = none)
    ∧ ((checkAuthStatus (fun _ => none) (fun _ => "sz") true (Except.error "net")
        ⟨none, true, none⟩ ⟨some "tok", none, some "usr"⟩).st = emptyStore
      ∧ (checkAuthStatus (fun _ => none) (fun _ => "sz") true (Except.error "net")
        ⟨none, true, none⟩ ⟨some "tok", none, some "usr"⟩).s.user = none) :=
  ⟨(c5_startup_reconciliation (fun _ => none) (fun _ => "sz") true (Except.error "net")
      ⟨none, true, none⟩ emptyStore).1 rfl rfl rfl,
   (c5_startup_reconciliation (fun _ => none) (fun _ => "sz") true (Except.error "net")
      ⟨none, true, none⟩ ⟨some "tok", none, some "usr"⟩).2.1 rfl rfl "net" rfl⟩

/-! ### C9: a partial credential bundle is left untouched at startup -/

/-- C9: if exactly one of the access-token and serialized-user keys is present,
startup reconciliation leaves the store unchanged, keeps the (null) user and
the error field, ends with isLoading=false, and its outcome does not depend on
the remote oracle, the parser, the serializer or the write outcome (no remote
call is made). -/
theorem c9_partial_bundle_frame (p : String → Option User) (sz : User → String)
    (w : Bool) (orc : Except String (Option AuthData)) (s : SessionState) (st : Store)
    (hone : st.token.isSome ≠ st.userData.isSome) (hu : s.user = none) :
    (checkAuthStatus p sz w orc s st).st = st
    ∧ (checkAuthStatus p sz w orc s st).s.user = none
    ∧ (checkAuthStatus p sz w orc s st).s.isLoading = false
    ∧ (checkAuthStatus p sz w orc s st).s.error = s.error
    ∧ ∀ (p2 : String → Option User) (sz2 : User → String) (w2 : Bool)
        (orc2 : Except String (Option AuthData)),
        checkAuthStatus p2 sz2 w2 orc2 s st = checkAuthStatus p sz w orc s st := by
  have hc : (truthy st.token && truthy st.userData) = false := by
    cases htok : st.token with
    | none => rfl
    | some a =>
      cases hud : st.userData with
      | none => simp [truthy]
      | some b => rw [htok, hud] at hone; simp at hone
  rw [check_skip p sz w orc s st hc]
  refine ⟨rfl, hu, rfl, rfl, ?_⟩
  intro p2 sz2 w2 orc2
  rw [check_skip p2 sz2 w2 orc2 s st hc]

theorem c9_partial_bundle_frame_witness :
    (checkAuthStatus (fun _ => none) (fun _ => "sz") true (Except.ok none)
        ⟨none, true, some "e0"⟩ ⟨some "tok", none, none⟩).st = ⟨some "tok", none, none⟩
    ∧ (checkAuthStatus (fun _ => none) (fun _ => "sz") true (Except.ok none)
        ⟨none, true, some "e0"⟩ ⟨some "tok", none, none⟩).s.user = none
    ∧ (checkAuthStatus (fun _ => none) (fun _ => "sz") true (Except.ok none)
        ⟨none, true, some "e0"⟩ ⟨some "tok", none, none⟩).s.isLoading = false
    ∧ (checkAuthStatus (fun _ => none) (fun _ => "sz") true (Except.ok none)
        ⟨none, true, some "e0"⟩ ⟨some "tok", none, none⟩).s.error = some "e0"
    ∧ ∀ (p2 : String → Option User) (sz2 : User → String) (w2 : Bool)
        (orc2 : Except String (Option AuthData)),
        checkAuthStatus p2 sz2 w2 orc2 ⟨none, true, some "e0"⟩ ⟨some "tok", none, none⟩
          = checkAuthStatus (fun _ => none) (fun _ => "sz") true (Except.ok none)
              ⟨none, true, some "e0"⟩ ⟨some "tok", none, none⟩ :=
  c9_partial_bundle_frame (fun _ => none) (fun _ => "sz") true (Except.ok none)
    ⟨none, true, some "e0"⟩ ⟨some "tok", none, none⟩ (by simp) rfl

/-! ### C7: the visible session is atomic -/

theorem and_of_imp (a b : Bool) (h : a = true → b = true) : a = (a && b) := by
  cases a with
  | false => rfl
  | true => rw [h rfl]; rfl

/-- C7: assuming the invariant that a non-null user implies a stored access
token (true of the initial state, user=null), after any completed operation
the derived isAuthenticated flag equals the conjunction of user being non-null
and the access token being present in the store. -/
theorem c7_atomic_visible_session (sz : User → String) (env : StoreEnv)
    (p : String → Option User) (w : Bool) (s : SessionState) (st : Store)
    (h : s.user.isSome = true → st.token.isSome = true) :
    (∀ orc : Except String AuthResponse,
      isAuthenticated (login sz env orc s st).s
        = ((login sz env orc s st).s.user.isSome && (login sz env orc s st).st.token.isSome))
    ∧ (∀ orc : Except String AuthResponse,
      isAuthenticated (register sz env orc s st).s
        = ((register sz env orc s st).s.user.isSome
            && (register sz env orc s st).st.token.isSome))
    ∧ (∀ orc : Except String ApiResponse,
      isAuthenticated (logout orc s st).s
        = ((logout orc s st).s.user.isSome && (logout orc s st).st.token.isSome))
    ∧ (∀ orc : Except String ApiResponse,
      isAuthenticated (resetPassword orc s st).s
        = ((resetPassword orc s st).s.user.isSome
            && (resetPassword orc s st).st.token.isSome))
    ∧ (∀ orc : String → Except String AuthResponse,
      isAuthenticated (refreshToken sz env orc s st).s
        = ((refreshToken sz env orc s st).s.user.isSome
            && (refreshToken sz env orc s st).st.token.isSome))
    ∧ (isAuthenticated (clearError s) = ((clearError s).user.isSome && st.token.isSome))
    ∧ (∀ orc : Except String (Option AuthData),
      isAuthenticated (checkAuthStatus p sz w orc s st).s
        = ((checkAuthStatus p sz w orc s st).s.user.isSome
            && (checkAuthStatus p sz w orc s st).st.token.isSome)) := by
  refine ⟨?_, ?_, ?_, ?_, ?_, ?_, ?_⟩
  · intro orc
    apply and_of_imp
    unfold login
    cases orc with
    | error m => exact h
    | ok resp =>
      dsimp only
      split
      · split
        · exact storeAuthData_token_inv sz env resp (opEntry s) st h
        · exact storeAuthData_token_inv sz env resp (opEntry s) st h
      · exact h
  · intro orc
    apply and_of_imp
    unfold register
    cases orc with
    | error m => exact h
    | ok resp =>
      dsimp only
      split
      · split
        · exact storeAuthData_token_inv sz env resp (opEntry s) st h
        · exact storeAuthData_token_inv sz env resp (opEntry s) st h
      · exact h
  · intro orc
    apply and_of_imp
    intro hu
    exact absurd hu (by simp [logout, logoutEntry, clearAuthData, isAuthenticated])
  · intro orc
    apply and_of_imp
    unfold resetPassword
    cases orc with
    | error m => exact h
    | ok resp =>
      dsimp only
      split
      · exact h
      · exact h
  · intro orc
    apply and_of_imp
    unfold refreshToken
    split
    · cases orc (st.refreshTok.getD "") with
      | error m => intro hu; exact absurd hu (by simp [clearAuthData, isAuthenticated])
      | ok resp =>
        dsimp only
        split
        · split
          · exact storeAuthData_token_inv sz env resp s st h
          · intro hu; exact absurd hu (by simp [clearAuthData, isAuthenticated])
        · intro hu; exact absurd hu (by simp [clearAuthData, isAuthenticated])
    · intro hu; exact absurd hu (by simp [clearAuthData, isAuthenticated])
  · exact and_of_imp _ _ h
  · intro orc
    apply and_of_imp
    unfold checkAuthStatus
    split
    · rename_i hcond
      have htok : st.token.isSome = true := by
        refine isSome_of_truthy _ ?_
        cases htk : truthy st.token with
        | false => rw [htk] at hcond; exact absurd hcond (by simp)
        | true => rfl
      split
      · intro hu; exact absurd hu (by simp [clearAuthData, isAuthenticated])
      · cases orc with
        | error e => intro hu; exact absurd hu (by simp [clearAuthData, isAuthenticated])
        | ok od =>
          cases od with
          | none => intro _; exact htok
          | some d =>
            dsimp only
            split
            · intro _; exact htok
            · intro hu; exact absurd hu (by simp [clearAuthData, isAuthenticated])
    · exact h

theorem c7_atomic_visible_session_witness :
    isAuthenticated (logout (Except.error "net") ⟨some ⟨"u1", "a@b.com", none, true⟩,
        false, none⟩ ⟨some "tok", some "ref", some "usr"⟩).s
      = ((logout (Except.error "net") ⟨some ⟨"u1", "a@b.com", none, true⟩,
          false, none⟩ ⟨some "tok", some "ref", some "usr"⟩).s.user.isSome
        && (logout (Except.error "net") ⟨some ⟨"u1", "a@b.com", none, true⟩,
          false, none⟩ ⟨some "tok", some "ref", some "usr"⟩).st.token.isSome)
    ∧ isAuthenticated (clearError ⟨some ⟨"u1", "a@b.com", none, true⟩, false, none⟩)
      = ((clearError ⟨some ⟨"u1", "a@b.com", none, true⟩, false, none⟩).user.isSome
        && (⟨some "tok", some "ref", some "usr"⟩ : Store).token.isSome) :=
  ⟨(c7_atomic_visible_session (fun _ => "sz") ⟨true, true, true⟩ (fun _ => none) true
      ⟨some ⟨"u1", "a@b.com", none, true⟩, false, none⟩
      ⟨some "tok", some "ref", some "usr"⟩ (fun _ => rfl)).2.2.1 (Except.error "net"),
   (c7_atomic_visible_session (fun _ => "sz") ⟨true, true, true⟩ (fun _ => none) true
      ⟨some ⟨"u1", "a@b.com", none, true⟩, false, none⟩
      ⟨some "tok", some "ref", some "usr"⟩ (fun _ => rfl)).2.2.2.2.2.1⟩

/-! ### C8: startup reconciliation is idempotent on the user -/

/-- C8: with a fixed remote behavior (getCurrentUser outcome, user parser and
serializer, cached-user write outcome), running startup reconciliation twice in
a row from any state yields the same final user value after each of the two
runs. The only assumption on the JSON round trip is that parsing a serialized
user never throws. -/
theorem c8_reconciliation_idempotent (p : String → Option User) (sz : User → String)
    (w : Bool) (orc : Except String (Option AuthData)) (s : SessionState) (st : Store)
    (hps : ∀ u, (p (sz u)).isSome = true) :
    (checkAuthStatus p sz w orc
        (checkAuthStatus p sz w orc s st).s (checkAuthStatus p sz w orc s st).st).s.user
      = (checkAuthStatus p sz w orc s st).s.user := by
  cases hc : (truthy st.token && truthy st.userData) with
  | false =>
    rw [check_skip p sz w orc s st hc]
    dsimp only
    rw [check_skip p sz w orc _ st hc]
  | true =>
    have ht : truthy st.token = true := by
      cases htk : truthy st.token with
      | false => rw [htk] at hc; exact absurd hc (by simp)
      | true => rfl
    cases hp : p (st.userData.getD "") with
    | none =>
      have e1 : checkAuthStatus p sz w orc s st
          = ⟨⟨none, false, none⟩, emptyStore, none⟩ := by
        simp [checkAuthStatus, hc, hp, clearAuthData]
      rw [e1]
      dsimp only
      rw [check_skip p sz w orc _ emptyStore rfl]
    | some pu =>
      cases orc with
      | error e =>
        have e1 : checkAuthStatus p sz w (Except.error e) s st
            = ⟨⟨none, false, none⟩, emptyStore, none⟩ := by
          simp [checkAuthStatus, hc, hp, clearAuthData]
        rw [e1]
        dsimp only
        rw [check_skip p sz w _ _ emptyStore rfl]
      | ok od =>
        cases od with
        | none =>
          have e1 : checkAuthStatus p sz w (Except.ok none) s st
              = ⟨⟨some pu, false, s.error⟩, st, none⟩ := by
            simp [checkAuthStatus, hc, hp]
          rw [e1]
          dsimp only
          have e2 : checkAuthStatus p sz w (Except.ok none)
              ⟨some pu, false, s.error⟩ st
              = ⟨⟨some pu, false, s.error⟩, st, none⟩ := by
            simp [checkAuthStatus, hc, hp]
          rw [e2]
        | some d =>
          cases w with
          | false =>
            have e1 : checkAuthStatus p sz false (Except.ok (some d)) s st
                = ⟨⟨none, false, none⟩, emptyStore, none⟩ := by
              simp [checkAuthStatus, hc, hp, clearAuthData]
            rw [e1]
            dsimp only
            rw [check_skip p sz false _ _ emptyStore rfl]
          | true =>
            have e1 : checkAuthStatus p sz true (Except.ok (some d)) s st
                = ⟨⟨some d.user, false, s.error⟩,
                   ⟨st.token, st.refreshTok, some (sz d.user)⟩, none⟩ := by
              simp [checkAuthStatus, hc, hp]
            rw [e1]
            dsimp only
            by_cases hsz : sz d.user = ""
            · have hc2 : (truthy st.token
                  && truthy (Store.mk st.token st.refreshTok (some (sz d.user))).userData)
                  = false := by
                simp [truthy, hsz]
              rw [check_skip p sz true (Except.ok (some d)) _ _ hc2]
            · have hc2 : (truthy st.token
                  && truthy (Store.mk st.token st.refreshTok (some (sz d.user))).userData)
                  = true := by
                rw [ht]
                simp [truthy, hsz]
              obtain ⟨v, hv⟩ := Option.isSome_iff_exists.mp (hps d.user)
              have e2 : checkAuthStatus p sz true (Except.ok (some d))
                  ⟨some d.user, false, s.error⟩
                  ⟨st.token, st.refreshTok, some (sz d.user)⟩
                  = ⟨⟨some d.user, false, s.error⟩,
                     ⟨st.token, st.refreshTok, some (sz d.user)⟩, none⟩ := by
                simp [checkAuthStatus, hc2, hv]
              rw [e2]

theorem c8_reconciliation_idempotent_witness :
    (∀ u : User, ((fun _ => some (User.mk "u1" "a@b.com" none true))
        ((fun _ => "ser") u) : Option User).isSome = true)
    ∧ (checkAuthStatus (fun _ => some (User.mk "u1" "a@b.com" none true)) (fun _ => "ser")
        true (Except.ok (some ⟨⟨"u2", "c@d.com", none, false⟩, "t2", "r2"⟩))
        (checkAuthStatus (fun _ => some (User.mk "u1" "a@b.com" none true)) (fun _ => "ser")
          true (Except.ok (some ⟨⟨"u2", "c@d.com", none, false⟩, "t2", "r2"⟩))
          ⟨none, true, none⟩ ⟨some "tok", none, some "cached"⟩).s
        (checkAuthStatus (fun _ => some (User.mk "u1" "a@b.com" none true)) (fun _ => "ser")
          true (Except.ok (some ⟨⟨"u2", "c@d.com", none, false⟩, "t2", "r2"⟩))
          ⟨none, true, none⟩ ⟨some "tok", none, some "cached"⟩).st).s.user
      = (checkAuthStatus (fun _ => some (User.mk "u1" "a@b.com" none true)) (fun _ => "ser")
          true (Except.ok (some ⟨⟨"u2", "c@d.com", none, false⟩, "t2", "r2"⟩))
          ⟨none, true, none⟩ ⟨some "tok", none, some "cached"⟩).s.user :=
  ⟨fun _ => rfl,
   c8_reconciliation_idempotent (fun _ => some (User.mk "u1" "a@b.com" none true))
     (fun _ => "ser") true (Except.ok (some ⟨⟨"u2", "c@d.com", none, false⟩, "t2", "r2"⟩))
     ⟨none, true, none⟩ ⟨some "tok", none, some "cached"⟩ (fun _ => rfl)⟩

end RnAuth
